import Mathlib

set_option maxRecDepth 100000

/-!
Verification development for the CyberX pipeline (src/CyberX.py).

The five pipeline phases are shallowly embedded as pure Lean functions.
External capabilities (the ZenRows / direct page fetchers, the Gemini text
generation call, the `json.loads` parser, the embedding model and the vector
store) are passed in as function parameters returning `Except`/`Option`
values; an `Except.error` models a raised Python exception at that call site.
Python string operations are modelled over the character list of a `String`
(`str.lower`, `str.strip`, slicing `s[:n]`, `" ".join`, `str.split`),
matching Python's character-based semantics.
-/

namespace CyberX

/-- Model of Python `str.lower()`. -/
def pyLower (s : String) : String := String.mk (s.data.map Char.toLower)

/-- Model of Python `str.strip()`: drop leading and trailing whitespace. -/
def pyStrip (s : String) : String :=
  String.mk (((s.data.dropWhile Char.isWhitespace).reverse.dropWhile Char.isWhitespace).reverse)

/-- Model of Python slicing `s[:n]` (first `n` characters). -/
def pySlice (s : String) (n : Nat) : String := String.mk (s.data.take n)

/-- Model of Python `sep.join(parts)`. -/
def pyJoin (sep : String) (parts : List String) : String := String.intercalate sep parts

/-- Model of Python `dict.get(key, default)` over an association list that
keeps the dict's insertion order. -/
def dictGet (tbl : List (String × String)) (key dflt : String) : String :=
  match tbl.find? (fun p => p.1 == key) with
  | some p => p.2
  | none => dflt

/-- Model of Python `key in dict`. -/
def dictHasKey (tbl : List (String × String)) (key : String) : Bool :=
  tbl.any (fun p => p.1 == key)

/-- An apostrophe character, used inside embedded literals from the source. -/
def apos : String := String.mk [Char.ofNat 39]

/-- ARTICLE_URLS: the fixed source list of 15 report URLs (CyberX.py lines 36-52). -/
def ARTICLE_URLS : List String := [
  "https://thehackernews.com/2025/12/chinese-hackers-have-started-exploiting.html",
  "https://thehackernews.com/2025/12/react2shell-exploitation-escalates-into.html",
  "https://thehackernews.com/2025/12/warning-winrar-vulnerability-cve-2025.html",
  "https://thehackernews.com/2025/12/threatsday-bulletin-spyware-alerts.html",
  "https://thehackernews.com/2025/12/chrome-targeted-by-active-in-wild.html",
  "https://thehackernews.com/2025/12/unpatched-gogs-zero-day-exploited.html",
  "https://thehackernews.com/2025/12/storm-0249-escalates-ransomware-attacks.html",
  "https://thehackernews.com/2025/12/nanoremote-malware-uses-google-drive.html",
  "https://thehackernews.com/2025/11/apt24-deploys-badaudio-in-years-long.html",
  "https://thehackernews.com/2025/08/charon-ransomware-hits-middle-east.html",
  "https://thehackernews.com/2025/12/5-threats-that-reshaped-web-security.html",
  "https://thehackernews.com/2025/12/microsoft-issues-security-fixes-for-56.html",
  "https://thehackernews.com/2025/12/critical-xxe-bug-cve-2025-66516-cvss.html",
  "https://thehackernews.com/2025/11/fortinet-warns-of-new-fortiweb-cve-2025.html",
  "https://thehackernews.com/2025/12/new-advanced-phishing-kits-use-ai-and.html"]

/-- One entry of the built-in mock dataset (CyberX.py lines 58-89). -/
structure MockEntry where
  actor : String
  aliases : List String
  ttps : List String
  targets : List String
  iocs : List String
  timeline : String
deriving DecidableEq

/-- MOCK_THREAT_INTEL_LIST: the fixed built-in dataset of 15 entries. -/
def MOCK_THREAT_INTEL_LIST : List MockEntry := [
  ⟨"Earth Lamia", ["China-nexus"], ["RCE Exploitation"], ["Global Servers"], [], "Dec 2025"⟩,
  ⟨"Jackpot Panda", ["China-nexus"], ["Crypto Mining"], ["Web Infrastructure"], [], "Dec 2025"⟩,
  ⟨"STAC6565", ["Gold Blade"], ["Ransomware Deployment"], ["Canada"], [], "Dec 2025"⟩,
  ⟨"VolkLocker", [], ["Ransomware"], ["Windows/Linux"], [], "Dec 2025"⟩,
  ⟨"PassiveNeuron", ["APT"], ["Espionage, Neursite"], ["Global"], [], "Oct 2025"⟩,
  ⟨"APT31", ["Judgement Panda"], ["CloudyLoader"], ["Russian IT"], [], "Nov 2025"⟩,
  ⟨"Storm-0249", [], ["ClickFix, Ransomware"], ["Multiple Sectors"], [], "Dec 2025"⟩,
  ⟨"SideWinder", ["APT-C-17"], ["Phishing"], ["Maritime, Nuclear"], [], "Mar 2025"⟩,
  ⟨"Blind Eagle", ["APT-C-36"], ["RATs, Phishing"], ["Colombia"], [], "Aug 2025"⟩,
  ⟨"Charon", [], ["Ransomware"], ["Middle East"], [], "Aug 2025"⟩,
  ⟨"Storm-2603", [], ["LockBit Ransomware"], ["Multiple"], [], "Oct 2025"⟩,
  ⟨"GrayBravo", ["TAG-150"], ["CastleLoader"], ["Multiple Sectors"], [], "Dec 2025"⟩,
  ⟨"Warp Panda", ["BRICKSTORM"], ["Backdoor"], ["Government"], [], "Dec 2025"⟩,
  ⟨"APT41", ["Brass Typhoon"], ["Phishing"], ["US Officials"], [], "2025"⟩,
  ⟨"Aquatic Panda", [], ["Espionage"], ["Global"], [], "2025"⟩]

/-- PREDEFINED_QUESTIONS: the static QA table (CyberX.py lines 91-96).
Keys are already lower-cased in the source. -/
def PREDEFINED_QUESTIONS : List (String × String) := [
  ("which threat actors are china-nexus?",
   "Numerous threat actors are linked to China, generally categorized as China-nexus due to their alignment with the strategic intelligence-gathering interests of the People" ++ apos ++ "s Republic of China (PRC). In 2025, China-nexus actors include Earth Lamia, Jackpot Panda, APT31, APT41, Warp Panda, and others using advanced exploitation."),
  ("what are the most active ransomware groups in 2025?",
   "Active ransomware in 2025: STAC6565 (QWCrypt), VolkLocker, Charon, Storm-0249, LockBit variants."),
  ("recent activities of medusa?",
   "Medusa refers to two prominent entities: a highly active ransomware group and a major submarine cable project. The Medusa ransomware (operated by affiliates like Spearwing) has seen a surge in activity in 2025, targeting critical sectors with double extortion, while the Medusa Submarine Cable System is actively laying new digital infrastructure in the Mediterranean during late 2025."),
  ("recent activities of apt31?",
   "APT31, a China-linked cyber espionage group, has recently been active in campaigns targeting the Russian IT sector and the Czech Ministry of Foreign Affairs, utilizing a diverse and evolving set of tools to maintain stealth and persistence. APT31 launched stealthy attacks on Russian IT firms in Nov 2025 using CloudyLoader.")]

/-- Result of fetching and soup-parsing one URL: either the page's extracted
title and paragraph texts, or a raised exception's message. This is the
boundary to the external page-fetch capability (requests + BeautifulSoup). -/
inductive FetchResult where
  | ok (title : String) (paragraphs : List String)
  | err (msg : String)
deriving DecidableEq

/-- A raw collected document `{url, title, content}` (CyberX.py line 140). -/
structure RawReport where
  url : String
  title : String
  content : String
deriving DecidableEq

/-- A phase-1 log entry `{url, title, content_preview}` (CyberX.py lines 138-139). -/
structure LogReport where
  url : String
  title : String
  content_preview : String
deriving DecidableEq

/-- A phase-1 failure entry `{url, error}` (CyberX.py line 175). -/
structure FailedUrl where
  url : String
  error : String
deriving DecidableEq

/-- The phase-1 section of the run log (CyberX.py lines 106-112, 147, 179). -/
structure Phase1Log where
  collection_method : String
  collected_count : Nat
  reports : List LogReport
  failed_urls : List FailedUrl
  error : Option String
deriving DecidableEq

/-- Per-page processing shared verbatim by both collection paths
(CyberX.py lines 135-141 and 165-171): content is the space-joined paragraph
texts truncated to 10,000 characters; the log entry carries a preview of the
first 500 characters with an ellipsis appended when truncation occurred. -/
def mkReport (url title : String) (paragraphs : List String) : RawReport × LogReport :=
  let content := pySlice (pyJoin " " paragraphs) 10000
  let preview := if content.length > 500 then pySlice content 500 ++ "..." else content
  (⟨url, title, content⟩, ⟨url, title, preview⟩)

/-- The primary (ZenRows) collection pass (CyberX.py lines 119-148): a single
try block around the whole loop, so the first failing source aborts the rest;
already collected raw reports and log entries are kept up to that point and
the exception message is returned. -/
def primaryPass (fetch : String → FetchResult) :
    List String → List RawReport × List LogReport × Option String
  | [] => ([], [], none)
  | url :: rest =>
    match fetch url with
    | FetchResult.err m => ([], [], some m)
    | FetchResult.ok title paragraphs =>
      ((mkReport url title paragraphs).1 :: (primaryPass fetch rest).1,
       (mkReport url title paragraphs).2 :: (primaryPass fetch rest).2.1,
       (primaryPass fetch rest).2.2)

/-- The secondary (direct requests) collection pass (CyberX.py lines 156-175):
a try block per source, so a failing source only contributes a
`{url, error}` entry and the loop continues. -/
def fallbackPass (fetch : String → FetchResult) :
    List String → List RawReport × List LogReport × List FailedUrl
  | [] => ([], [], [])
  | url :: rest =>
    match fetch url with
    | FetchResult.err m =>
      ((fallbackPass fetch rest).1, (fallbackPass fetch rest).2.1,
       (⟨url, m⟩ : FailedUrl) :: (fallbackPass fetch rest).2.2)
    | FetchResult.ok title paragraphs =>
      ((mkReport url title paragraphs).1 :: (fallbackPass fetch rest).1,
       (mkReport url title paragraphs).2 :: (fallbackPass fetch rest).2.1,
       (fallbackPass fetch rest).2.2)

/-- Result of phase 1: the returned raw reports plus the log section. -/
structure Phase1Result where
  raws : List RawReport
  log : Phase1Log
deriving DecidableEq

/-- phase1_data_collection (CyberX.py lines 103-181). `useZenrows` models the
configured-credential check; `fetchPrimary` and `fetchFallback` model the two
page-fetch capabilities. On a primary-pass exception the raw report list is
reset and the fallback pass re-runs over the full ARTICLE_URLS, while the
log's `reports` list keeps the entries already appended by the primary pass. -/
def phase1_data_collection (useZenrows : Bool)
    (fetchPrimary fetchFallback : String → FetchResult) : Phase1Result :=
  if useZenrows then
    match primaryPass fetchPrimary ARTICLE_URLS with
    | (raws, logs, none) =>
      ⟨raws, ⟨"ZenRows API", raws.length, logs, [], none⟩⟩
    | (_, plogs, some e) =>
      match fallbackPass fetchFallback ARTICLE_URLS with
      | (fraws, flogs, faileds) =>
        ⟨fraws, ⟨"Regular Scraping (requests + BS4)", fraws.length, plogs ++ flogs, faileds, some e⟩⟩
  else
    match fallbackPass fetchFallback ARTICLE_URLS with
    | (fraws, flogs, faileds) =>
      ⟨fraws, ⟨"Regular Scraping (requests + BS4)", fraws.length, flogs, faileds, none⟩⟩

/-- A JSON value, the result type of the external `json.loads` parser. -/
inductive JsonVal where
  | nullV
  | boolV (b : Bool)
  | num (n : Int)
  | str (s : String)
  | arr (elems : List JsonVal)
  | obj (fields : List (String × JsonVal))

/-- The `threat_intelligence` field of a phase-2 document: a parsed JSON
object from the LLM, the raw-text wrapper built on a JSON parse failure
(CyberX.py line 225), or a mock dataset entry (CyberX.py line 249). -/
inductive ThreatIntel where
  | parsed (j : JsonVal)
  | rawNote (raw note : String)
  | mockEntry (m : MockEntry)

/-- A structured document `{title, source, threat_intelligence}`
(CyberX.py lines 227-231, 246-250). -/
structure Document where
  title : String
  source : String
  threat_intelligence : ThreatIntel

/-- The phase-2 section of the run log (CyberX.py lines 208-214, 240, 243, 255). -/
structure Phase2Log where
  used_llm : Bool
  used_mock : Bool
  document_count : Nat
  documents : List Document
  error : Option String

/-- EXTRACTION_PROMPT (CyberX.py lines 188-202). -/
def EXTRACTION_PROMPT : String :=
  "\nYou are a cybersecurity threat intelligence analyst.\n\nExtract structured data from the report:\n- actor (main threat actor name)\n- aliases (list)\n- ttps (list of tactics/techniques)\n- targets (list of industries/countries/sectors)\n- iocs (list)\n- timeline\n\nReturn ONLY valid JSON object. Use empty lists if nothing found.\n\nREPORT:\n"

/-- The one mock Document built for index `idx` of the mock dataset
(CyberX.py lines 246-250). -/
def mkMockDoc (idx : Nat) (m : MockEntry) : Document :=
  ⟨"Mock Threat Report " ++ toString (idx + 1) ++ " (Recent 2025)", "Simulated Feed",
   ThreatIntel.mockEntry m⟩

/-- The full substituted output: one Document per mock dataset entry
(CyberX.py lines 245-252). -/
def mockDocs : List Document :=
  MOCK_THREAT_INTEL_LIST.enum.map (fun p => mkMockDoc p.1 p.2)

/-- The primary extraction loop (CyberX.py lines 220-233): one generation
call per raw report inside a single try block, so a raised generation error
aborts the loop, returning the documents extracted so far and the message.
A JSON parse failure does not abort: the stripped response text is wrapped
as `{raw: ..., note: "JSON parse failed"}`. `llm` models
`llm.generate_content(...).text` and `parse` models `json.loads`. -/
def extractLoop (llm : String → Except String String) (parse : String → Option JsonVal) :
    List RawReport → List Document × Option String
  | [] => ([], none)
  | r :: rest =>
    match llm (EXTRACTION_PROMPT ++ r.content) with
    | Except.error e => ([], some e)
    | Except.ok text =>
      let stripped := pyStrip text
      let ti := match parse stripped with
        | some j => ThreatIntel.parsed j
        | none => ThreatIntel.rawNote stripped "JSON parse failed"
      match extractLoop llm parse rest with
      | (ds, e) => ((⟨r.title, r.url, ti⟩ : Document) :: ds, e)

/-- phase2_information_extraction (CyberX.py lines 205-257). The primary path
runs only when the USE_LLM flag is set and raw reports exist; any error
partway through (or an empty result) triggers the all-or-nothing mock
substitution: the returned document list is cleared and refilled with the 15
mock documents, while the log's `documents` list keeps the partial documents
already appended and gains the mock ones after them. -/
def phase2_information_extraction (use_llm : Bool)
    (llm : String → Except String String) (parse : String → Option JsonVal)
    (raw_reports : List RawReport) : List Document × Phase2Log :=
  let initUsedMock := raw_reports.isEmpty || !use_llm
  if use_llm && !raw_reports.isEmpty then
    match extractLoop llm parse raw_reports with
    | (docs, none) =>
      if docs.isEmpty then
        (mockDocs, ⟨true, true, mockDocs.length, docs ++ mockDocs, none⟩)
      else
        (docs, ⟨true, initUsedMock, docs.length, docs, none⟩)
    | (docs, some e) =>
      (mockDocs, ⟨true, true, mockDocs.length, docs ++ mockDocs, some e⟩)
  else
    (mockDocs, ⟨false, true, mockDocs.length, mockDocs, none⟩)

/-- The grounding prompt built by rag_query (CyberX.py lines 346-354). -/
def ragPrompt (context user_query : String) : String :=
  "\nAnswer ONLY using context. Say \"Insufficient data.\" if unknown.\n\nCONTEXT:\n" ++
    context ++ "\n\nQUESTION:\n" ++ user_query ++ "\n"

/-- Tier 1 of rag_query (CyberX.py lines 338-359): everything inside the try
block. `hasKB` models `collection and embedding_model` both being present;
`embed` models `embedding_model.encode`, `queryIdx` models the vector-store
top-3 query returning `results["documents"][0]`, and `gen` models
`llm.generate_content(...).text`. An `Except.error` is a raised exception. -/
def ragTier1 (hasKB use_llm : Bool) (embed : String → Except String Nat)
    (queryIdx : Nat → Except String (List String))
    (gen : String → Except String String) (user_query : String) : Except String String :=
  if !hasKB then Except.error "No KB"
  else
    match embed user_query with
    | Except.error e => Except.error e
    | Except.ok emb =>
      match queryIdx emb with
      | Except.error e => Except.error e
      | Except.ok texts =>
        let context := pyJoin "\n\n" texts
        let prompt := ragPrompt context user_query
        if use_llm then
          match gen prompt with
          | Except.error e => Except.error e
          | Except.ok answer => Except.ok (pyStrip answer)
        else Except.error "LLM off"

/-- rag_query (CyberX.py lines 336-363): tier 1 under a try block; on any
exception the lower-cased (not stripped) question is looked up in
PREDEFINED_QUESTIONS with default "Insufficient data.". -/
def rag_query (hasKB use_llm : Bool) (embed : String → Except String Nat)
    (queryIdx : Nat → Except String (List String))
    (gen : String → Except String String) (user_query : String) : String :=
  match ragTier1 hasKB use_llm embed queryIdx gen user_query with
  | Except.ok answer => answer
  | Except.error _ => dictGet PREDEFINED_QUESTIONS (pyLower user_query) "Insufficient data."

/-- The phase-5 section of the run log as far as the claims need it
(CyberX.py lines 376-381, 393, 396). -/
structure Phase5Log where
  status : String
  queries : List String
deriving DecidableEq

/-- What one loop iteration of phase5_cli_interface does with one input line
(CyberX.py lines 389-404): strip it; a case-insensitive termination keyword
ends the loop; otherwise a static-table hit prints the canned answer without
calling the retriever, and only a table miss calls the retriever, whose
raised exception (`Except.error`) propagates out of the loop. -/
inductive StepOutcome where
  | terminate
  | reply (printed : String)
  | raised (msg : String)
deriving DecidableEq

/-- One iteration of the session loop over one raw input line. `retr` models
the rag_query closure handed to phase 5. -/
def sessionStep (retr : String → Except String String) (rawInput : String) : StepOutcome :=
  let query := pyStrip rawInput
  if pyLower query == "exit" || pyLower query == "quit" then StepOutcome.terminate
  else
    let normalized := pyLower query
    if dictHasKey PREDEFINED_QUESTIONS normalized then
      StepOutcome.reply (dictGet PREDEFINED_QUESTIONS normalized "Insufficient data.")
    else
      match retr query with
      | Except.ok answer => StepOutcome.reply answer
      | Except.error m => StepOutcome.raised m

/-- Outcome of the whole session loop: it either reaches a termination
keyword and stores its phase-5 log section, or an exception (a raised
retriever error, or input exhaustion raising EOFError) propagates before
`all_phase_data["phases"]` ever receives the phase-5 section. -/
inductive SessionOutcome where
  | finished (log : Phase5Log)
  | errored
deriving DecidableEq

/-- phase5_cli_interface (CyberX.py lines 374-406) run over a finite list of
input lines; an empty remainder models `input()` raising EOFError. Each
non-terminating input is appended to the `queries` log before the table
check, exactly as in the source. -/
def sessionLoop (retr : String → Except String String) : List String → SessionOutcome
  | [] => SessionOutcome.errored
  | rawInput :: rest =>
    let query := pyStrip rawInput
    if pyLower query == "exit" || pyLower query == "quit" then
      SessionOutcome.finished ⟨"completed", []⟩
    else
      let normalized := pyLower query
      let step : Except String Unit :=
        if dictHasKey PREDEFINED_QUESTIONS normalized then Except.ok ()
        else
          match retr query with
          | Except.ok _ => Except.ok ()
          | Except.error m => Except.error m
      match step with
      | Except.error _ => SessionOutcome.errored
      | Except.ok _ =>
        match sessionLoop retr rest with
        | SessionOutcome.finished log => SessionOutcome.finished ⟨log.status, query :: log.queries⟩
        | SessionOutcome.errored => SessionOutcome.errored

/-- The artifact filename used by save_run_json (CyberX.py line 414). -/
def save_filename (run_number : Nat) : String :=
  "CyberX #" ++ toString run_number ++ ".json"

/-- An observable effect of the top-level driver that the claims care about:
one attempted write of the run log to its file. -/
inductive MainEvent where
  | saveAttempt (filename : String)
deriving DecidableEq

/-- The `try/finally` structure of the top-level driver (CyberX.py lines
438-446): whatever the session loop does — finish on a keyword or end by a
propagating error — the `finally` block calls save_run_json exactly once. -/
def mainDriver (retr : String → Except String String) (inputs : List String)
    (run_number : Nat) : SessionOutcome × List MainEvent :=
  (sessionLoop retr inputs, [MainEvent.saveAttempt (save_filename run_number)])

/-- Whether `pat` is an initial segment of `l` (character-wise). -/
def beginsWith : List Char → List Char → Bool
  | [], _ => true
  | _ :: _, [] => false
  | a :: as, b :: bs => a == b && beginsWith as bs

/-- Whether `pat` is a final segment of `l` (character-wise). -/
def finishesWith (pat l : List Char) : Bool := beginsWith pat.reverse l.reverse

/-- Model of `glob.glob("CyberX #*.json")` membership for one filename
(CyberX.py line 429): the name starts with `CyberX #`, ends with `.json`,
and is long enough that the two do not overlap (`*` matches any characters,
possibly none). -/
def globMatchB (f : String) : Bool :=
  beginsWith ("CyberX #".data) f.data && finishesWith (".json".data) f.data &&
    decide (13 ≤ f.length)

/-- Model of Python `s.split(c)` for a single-character separator:
accumulator-based split keeping empty pieces, exactly as Python does. -/
def splitPieces (c : Char) : List Char → List Char → List (List Char)
  | [], acc => [acc.reverse]
  | x :: xs, acc =>
    if x == c then acc.reverse :: splitPieces c xs []
    else splitPieces c xs (x :: acc)

/-- Model of Python `s.split(c)` returning strings. -/
def pySplit (s : String) (c : Char) : List String :=
  (splitPieces c s.data []).map String.mk

/-- Numeric value of a digit string, most significant digit first. -/
def digitsToNat (l : List Char) : Nat := l.foldl (fun n c => n * 10 + (c.toNat - 48)) 0

/-- Model of Python `int(s)` on its non-negative domain: defined exactly on
non-empty all-digit strings; `none` models a raised ValueError. (Python's
`int` also accepts surrounding whitespace and a sign, which never occurs in
the run-number scan this models.) -/
def pyInt (s : String) : Option Nat :=
  if !s.data.isEmpty && s.data.all Char.isDigit then some (digitsToNat s.data) else none

/-- The number extracted from one filename by the run-number scan
(CyberX.py line 431): `int(f.split("#")[1].split(".")[0])`; `none` models a
raised exception (index error or ValueError). -/
def extractNum (f : String) : Option Nat :=
  match pySplit f '#' with
  | _ :: second :: _ =>
    match pySplit second '.' with
    | first :: _ => pyInt first
    | [] => none
  | _ => none

/-- Running maximum over the remaining conversion results; `none` models a
raised conversion error. -/
def maxFrom (acc : Nat) : List (Option Nat) → Option Nat
  | [] => some acc
  | none :: _ => none
  | some a :: rest => maxFrom (max acc a) rest

/-- Model of Python `max(...)` over a generator of `int(...)` results:
`none` if the generator is empty (max of empty raises) or any conversion
raised. -/
def maxOfList : List (Option Nat) → Option Nat
  | [] => none
  | none :: _ => none
  | some a :: rest => maxFrom a rest

/-- Model of Python's substring test `c in s` for a single character. -/
def pyContainsChar (s : String) (c : Char) : Bool := s.data.any (fun x => x == c)

/-- The startup run-number computation (CyberX.py lines 429-434) as a
function of the working directory's file list: glob for `CyberX #*.json`;
if none exist the run number is 1, otherwise 1 plus the maximum extracted
number over the glob matches that contain `#` and `.`. `none` models the
program crashing on a malformed filename before any phase runs. -/
def runNumberOfFiles (files : List String) : Option Nat :=
  let existing_files := files.filter globMatchB
  if existing_files.isEmpty then some 1
  else
    let candidates := existing_files.filter
      (fun f => pyContainsChar f '#' && pyContainsChar f '.')
    match maxOfList (candidates.map extractNum) with
    | some m => some (m + 1)
    | none => none

/-- The fetch environments exhibiting C9's possibility clauses: the primary
fetcher succeeds on the first source and then raises; the secondary fetcher
succeeds everywhere. -/
def fpC9 : String → FetchResult := fun u =>
  if u == "https://thehackernews.com/2025/12/chinese-hackers-have-started-exploiting.html"
  then FetchResult.ok "T1" ["p1"] else FetchResult.err "blocked"

/-- The always-succeeding secondary fetcher for C9's possibility clauses. -/
def ffC9 : String → FetchResult := fun _ => FetchResult.ok "T" ["p"]

/-- A key absent from an association-list dict makes `dictGet` return the
default. -/
theorem dictGet_not_found (tbl : List (String × String)) (key dflt : String)
    (h : dictHasKey tbl key = false) : dictGet tbl key dflt = dflt := by
  unfold dictGet
  have hfind : tbl.find? (fun p => p.1 == key) = none := by
    rw [List.find?_eq_none]
    intro p hp hbeq
    have : tbl.any (fun p => p.1 == key) = true := List.any_eq_true.mpr ⟨p, hp, hbeq⟩
    rw [dictHasKey] at h
    simp [this] at h
  rw [hfind]

/-- When the extraction loop completes with no error it produces exactly one
document per raw report. -/
theorem extractLoop_ok_length (llm : String → Except String String)
    (parse : String → Option JsonVal) :
    ∀ rs docs, extractLoop llm parse rs = (docs, none) → docs.length = rs.length := by
  intro rs
  induction rs with
  | nil =>
    intro docs h
    simp only [extractLoop] at h
    cases h
    rfl
  | cons r rest ih =>
    intro docs h
    simp only [extractLoop] at h
    cases hllm : llm (EXTRACTION_PROMPT ++ r.content) with
    | error e => rw [hllm] at h; cases h
    | ok text =>
      rw [hllm] at h
      cases hrec : extractLoop llm parse rest with
      | mk ds e =>
        rw [hrec] at h
        cases h
        have := ih ds hrec
        simp [this]

/-- C1 counterexample: with the knowledge base absent (so tier 1 raises
`ValueError("No KB")`), the question with a leading blank whose lower-cased,
TRIMMED form is a static-table key is answered with "Insufficient data.",
not with the table's answer: rag_query lower-cases but never trims, so the
claim as stated is false. -/
theorem c1_counterexample :
    rag_query false true (fun _ => Except.error "down") (fun _ => Except.error "down")
      (fun _ => Except.error "down") " recent activities of apt31?" = "Insufficient data." ∧
    dictHasKey PREDEFINED_QUESTIONS (pyLower (pyStrip " recent activities of apt31?")) = true ∧
    dictGet PREDEFINED_QUESTIONS (pyLower (pyStrip " recent activities of apt31?"))
      "Insufficient data." ≠ "Insufficient data." := by
  refine ⟨by decide, by decide, by decide⟩

/-- C1 (amended): on any tier-1 exception the Retriever returns the static
QA table's answer for the lower-cased (NOT trimmed) form of the question when
present, and "Insufficient data." otherwise; when tier 1 succeeds its answer
is returned and the table is never consulted. The model is a total function,
so no exception escapes. -/
theorem c1_retriever_fallback_amended (hasKB use_llm : Bool)
    (embed : String → Except String Nat) (queryIdx : Nat → Except String (List String))
    (gen : String → Except String String) (q : String) :
    (∀ e, ragTier1 hasKB use_llm embed queryIdx gen q = Except.error e →
      rag_query hasKB use_llm embed queryIdx gen q =
        dictGet PREDEFINED_QUESTIONS (pyLower q) "Insufficient data.") ∧
    (∀ e, ragTier1 hasKB use_llm embed queryIdx gen q = Except.error e →
      dictHasKey PREDEFINED_QUESTIONS (pyLower q) = false →
      rag_query hasKB use_llm embed queryIdx gen q = "Insufficient data.") ∧
    (∀ a, ragTier1 hasKB use_llm embed queryIdx gen q = Except.ok a →
      rag_query hasKB use_llm embed queryIdx gen q = a) := by
  refine ⟨?_, ?_, ?_⟩
  · intro e he
    unfold rag_query
    rw [he]
  · intro e he hmiss
    unfold rag_query
    rw [he]
    exact dictGet_not_found _ _ _ hmiss
  · intro a ha
    unfold rag_query
    rw [ha]

/-- C1 witness: concrete application of the amended theorem with the
knowledge base absent. -/
theorem c1_retriever_fallback_amended_witness :
    rag_query false true (fun _ => Except.error "down") (fun _ => Except.error "down")
      (fun _ => Except.error "down") "recent activities of apt31?" =
      dictGet PREDEFINED_QUESTIONS (pyLower "recent activities of apt31?")
        "Insufficient data." :=
  (c1_retriever_fallback_amended false true (fun _ => Except.error "down")
    (fun _ => Except.error "down") (fun _ => Except.error "down")
    "recent activities of apt31?").1 "No KB" rfl

/-- C2: an input whose stripped, lower-cased form is a static-table key (and
is not a termination keyword) makes the session print the canned answer and
bypass the retriever entirely: the step outcome is the table's answer and is
identical for every retriever function, including one that always raises. -/
theorem c2_session_bypass (retr retr' : String → Except String String) (input : String)
    (hkey : dictHasKey PREDEFINED_QUESTIONS (pyLower (pyStrip input)) = true)
    (hexit : pyLower (pyStrip input) ≠ "exit") (hquit : pyLower (pyStrip input) ≠ "quit") :
    sessionStep retr input =
      StepOutcome.reply (dictGet PREDEFINED_QUESTIONS (pyLower (pyStrip input))
        "Insufficient data.") ∧
    sessionStep retr input = sessionStep retr' input := by
  have hcond : (pyLower (pyStrip input) == "exit" || pyLower (pyStrip input) == "quit") = false := by
    simp [hexit, hquit]
  constructor
  · simp [sessionStep, hcond, hkey]
  · simp [sessionStep, hcond, hkey]

/-- C2 witness: a mixed-case, padded table question with a retriever stub
that always raises. -/
theorem c2_session_bypass_witness :
    sessionStep (fun _ => Except.error "retriever must not be called")
        "  Recent Activities of APT31? " =
      StepOutcome.reply (dictGet PREDEFINED_QUESTIONS
        (pyLower (pyStrip "  Recent Activities of APT31? ")) "Insufficient data.") :=
  (c2_session_bypass (fun _ => Except.error "retriever must not be called")
    (fun _ => Except.ok "other") "  Recent Activities of APT31? "
    (by decide) (by decide) (by decide)).1

/-- C5 counterexample: on a JSON parse failure the wrapped note is the
string "JSON parse failed", not "parse failed" as the claim states. -/
theorem c5_counterexample :
    (extractLoop (fun _ => Except.ok "not json") (fun _ => none)
        [⟨"u", "t", "c"⟩]).1 =
      [⟨"t", "u", ThreatIntel.rawNote "not json" "JSON parse failed"⟩] ∧
    "JSON parse failed" ≠ "parse failed" :=
  ⟨rfl, by decide⟩

/-- C5 (amended): an LLM response whose text does not parse as JSON does not
drop the document: the output document wraps the stripped response text as
`{raw: <text>, note: "JSON parse failed"}`, the loop continues, and an
error-free primary pass still yields one output document per input report. -/
theorem c5_parse_failure_amended (llm : String → Except String String)
    (parse : String → Option JsonVal) (r : RawReport) (rest : List RawReport) (text : String)
    (hok : llm (EXTRACTION_PROMPT ++ r.content) = Except.ok text)
    (hfail : parse (pyStrip text) = none) :
    (extractLoop llm parse (r :: rest)).1 =
      (⟨r.title, r.url, ThreatIntel.rawNote (pyStrip text) "JSON parse failed"⟩ : Document) ::
        (extractLoop llm parse rest).1 ∧
    (extractLoop llm parse (r :: rest)).2 = (extractLoop llm parse rest).2 ∧
    (∀ rs docs, extractLoop llm parse rs = (docs, none) → docs.length = rs.length) := by
  refine ⟨?_, ?_, extractLoop_ok_length llm parse⟩
  · simp [extractLoop, hok, hfail]
  · simp [extractLoop, hok, hfail]

/-- C5 witness: concrete application with a response that fails to parse. -/
theorem c5_parse_failure_amended_witness :
    (extractLoop (fun _ => Except.ok " oops ") (fun _ => none)
        [(⟨"u", "t", "c"⟩ : RawReport)]).1 =
      (⟨"t", "u", ThreatIntel.rawNote (pyStrip " oops ") "JSON parse failed"⟩ : Document) ::
        (extractLoop (fun _ => Except.ok " oops ") (fun _ => none) ([] : List RawReport)).1 :=
  (c5_parse_failure_amended (fun _ => Except.ok " oops ") (fun _ => none)
    ⟨"u", "t", "c"⟩ [] " oops " rfl rfl).1

/-- C8: a line whose stripped, lower-cased form is "exit" or "quit" (any
letter case) terminates the session loop at once with the phase-5 status set
to "completed"; and for every input stream — whether the loop ends by a
keyword or by a propagating error (retriever exception or input exhaustion)
— the driver's finally block writes the run log exactly once, to the run's
artifact file. -/
theorem c8_termination_and_single_save (retr : String → Except String String)
    (input : String) (rest : List String)
    (hkw : pyLower (pyStrip input) = "exit" ∨ pyLower (pyStrip input) = "quit") :
    sessionLoop retr (input :: rest) = SessionOutcome.finished ⟨"completed", []⟩ ∧
    (∀ (retr' : String → Except String String) (inputs : List String) (n : Nat),
      (mainDriver retr' inputs n).2 = [MainEvent.saveAttempt (save_filename n)]) := by
  constructor
  · have hcond : (pyLower (pyStrip input) == "exit" || pyLower (pyStrip input) == "quit") = true := by
      rcases hkw with h | h <;> simp [h]
    simp only [sessionLoop]
    rw [hcond]
    rfl
  · intro retr' inputs n
    rfl

/-- C8 witness: the upper-case keyword "EXIT" ends the loop with status
"completed", and a concrete erroring stream still gets exactly one save. -/
theorem c8_termination_and_single_save_witness :
    sessionLoop (fun _ => Except.error "down") ["EXIT", "ignored"] =
      SessionOutcome.finished ⟨"completed", []⟩ ∧
    (mainDriver (fun _ => Except.error "down") ([] : List String) 3).2 =
      [MainEvent.saveAttempt (save_filename 3)] := by
  have h := c8_termination_and_single_save (fun _ => Except.error "down") "EXIT" ["ignored"]
    (Or.inl (by decide))
  exact ⟨h.1, h.2 (fun _ => Except.error "down") [] 3⟩

/-- C4 counterexample: on a substitute-path trigger (LLM flag disabled) the
first replacement document's title is "Mock Threat Report 1 (Recent 2025)",
not "Mock Threat Report 1" as the claim states. -/
theorem c4_counterexample :
    ((phase2_information_extraction false (fun _ => Except.error "q") (fun _ => none)
        []).1.map Document.title).head? = some "Mock Threat Report 1 (Recent 2025)" ∧
    "Mock Threat Report 1 (Recent 2025)" ≠ "Mock Threat Report 1" := by
  refine ⟨by decide, by decide⟩

/-- C4 (amended): when the primary LLM path completes, the output has one
Document per input RawDocument; on any substitute-path trigger (flag
disabled, empty input, or an error partway through) all partially extracted
documents are discarded from the returned sequence, which is exactly the 15
mock documents, the N-th titled "Mock Threat Report N (Recent 2025)" with
source "Simulated Feed". -/
theorem c4_extractor_counts_amended :
    (∀ (llm : String → Except String String) (parse : String → Option JsonVal)
        (raws : List RawReport) (docs : List Document), raws ≠ [] →
      extractLoop llm parse raws = (docs, none) →
      (phase2_information_extraction true llm parse raws).1.length = raws.length) ∧
    (∀ (llm : String → Except String String) (parse : String → Option JsonVal)
        (raws : List RawReport),
      (phase2_information_extraction false llm parse raws).1 = mockDocs) ∧
    (∀ (llm : String → Except String String) (parse : String → Option JsonVal),
      (phase2_information_extraction true llm parse []).1 = mockDocs) ∧
    (∀ (llm : String → Except String String) (parse : String → Option JsonVal)
        (raws : List RawReport) (docs : List Document) (e : String),
      extractLoop llm parse raws = (docs, some e) →
      (phase2_information_extraction true llm parse raws).1 = mockDocs) ∧
    mockDocs.length = 15 ∧
    mockDocs.map Document.title = (List.range 15).map
      (fun i => "Mock Threat Report " ++ toString (i + 1) ++ " (Recent 2025)") ∧
    (∀ d ∈ mockDocs, d.source = "Simulated Feed") := by
  refine ⟨?_, ?_, ?_, ?_, by decide, by decide, by decide⟩
  · intro llm parse raws docs hne hok
    have hlen := extractLoop_ok_length llm parse raws docs hok
    have hcond : (true && !raws.isEmpty) = true := by
      simp [List.isEmpty_iff, hne]
    have hdocs : docs.isEmpty = false := by
      cases docs with
      | nil =>
        exfalso
        simp at hlen
        exact hne (List.length_eq_zero.mp hlen.symm)
      | cons d ds => rfl
    unfold phase2_information_extraction
    rw [hcond]
    simp only [if_true]
    rw [hok]
    simp [hdocs, hlen]
  · intro llm parse raws
    rfl
  · intro llm parse
    rfl
  · intro llm parse raws docs e herr
    cases raws with
    | nil => simp [extractLoop] at herr
    | cons r rest =>
      unfold phase2_information_extraction
      have hcond : (true && !(r :: rest).isEmpty) = true := by simp
      rw [hcond]
      simp only [if_true]
      rw [herr]

/-- C4 witness: a one-report primary run that completes, and a substitute
run triggered by an error. -/
theorem c4_extractor_counts_amended_witness :
    (phase2_information_extraction true (fun _ => Except.ok "x") (fun _ => none)
        [(⟨"u", "t", "c"⟩ : RawReport)]).1.length = 1 ∧
    (phase2_information_extraction true (fun _ => Except.error "quota") (fun _ => none)
        [(⟨"u", "t", "c"⟩ : RawReport)]).1 = mockDocs := by
  constructor
  · exact c4_extractor_counts_amended.1 (fun _ => Except.ok "x") (fun _ => none)
      [⟨"u", "t", "c"⟩] [⟨"t", "u", ThreatIntel.rawNote "x" "JSON parse failed"⟩]
      (by simp) rfl
  · exact c4_extractor_counts_amended.2.2.2.1 (fun _ => Except.error "quota") (fun _ => none)
      [⟨"u", "t", "c"⟩] [] "quota" rfl

/-- C10: with the LLM flag set, a non-empty input, and the primary
extraction loop raising partway through, phase 2 reports used_llm = true and
used_mock = true, its log keeps the partially extracted documents followed
by the 15 mock documents, its document_count is 15, and only the returned
sequence is replaced by the mock documents. -/
theorem c10_phase2_log_on_error (llm : String → Except String String)
    (parse : String → Option JsonVal) (raws : List RawReport) (docs : List Document)
    (e : String) (hne : raws ≠ [])
    (herr : extractLoop llm parse raws = (docs, some e)) :
    phase2_information_extraction true llm parse raws =
      (mockDocs, ⟨true, true, 15, docs ++ mockDocs, some e⟩) := by
  have hcond : (true && !raws.isEmpty) = true := by
    simp [List.isEmpty_iff, hne]
  unfold phase2_information_extraction
  rw [hcond]
  simp only [if_true]
  rw [herr]
  rfl

/-- A list begins with itself followed by anything. -/
theorem beginsWith_append (p r : List Char) : beginsWith p (p ++ r) = true := by
  induction p with
  | nil => rfl
  | cons a as ih => simp [beginsWith, ih]

/-- Splitting a separator-free list yields one piece. -/
theorem splitPieces_no_sep (c : Char) :
    ∀ (l acc : List Char), (∀ x ∈ l, (x == c) = false) →
      splitPieces c l acc = [acc.reverse ++ l] := by
  intro l
  induction l with
  | nil =>
    intro acc _
    simp [splitPieces]
  | cons x xs ih =>
    intro acc h
    have hx : (x == c) = false := h x (by simp)
    simp only [splitPieces, hx]
    rw [ih (x :: acc) (fun y hy => h y (by simp [hy]))]
    simp

/-- Splitting at the first separator occurrence: the head piece is
everything before it, and the rest restarts with an empty accumulator. -/
theorem splitPieces_sep (c : Char) :
    ∀ (front l₂ acc : List Char), (∀ x ∈ front, (x == c) = false) →
      splitPieces c (front ++ c :: l₂) acc =
        (acc.reverse ++ front) :: splitPieces c l₂ [] := by
  intro front
  induction front with
  | nil =>
    intro l₂ acc _
    simp [splitPieces]
  | cons x xs ih =>
    intro l₂ acc h
    have hx : (x == c) = false := h x (by simp)
    rw [List.cons_append]
    simp only [splitPieces, hx, Bool.false_eq_true, if_false, List.append_eq]
    rw [ih l₂ (x :: acc) (fun y hy => h y (by simp [hy]))]
    simp

/-- The length of a `String.mk` is its character count. -/
theorem strLength_mk (l : List Char) : (String.mk l).length = l.length := rfl

/-- Characterization of the `int()` model on digit strings. -/
theorem pyInt_eq_some_iff (s : String) (n : Nat) :
    pyInt s = some n ↔
      s.data ≠ [] ∧ (∀ ch ∈ s.data, ch.isDigit = true) ∧ n = digitsToNat s.data := by
  unfold pyInt
  by_cases h : (!s.data.isEmpty && s.data.all Char.isDigit) = true
  · rw [if_pos h]
    simp only [Bool.and_eq_true, Bool.not_eq_true', List.all_eq_true] at h
    obtain ⟨h1, h2⟩ := h
    constructor
    · intro he
      injection he with he
      refine ⟨?_, h2, he.symm⟩
      intro hnil
      rw [hnil] at h1
      simp at h1
    · rintro ⟨_, _, rfl⟩
      rfl
  · rw [if_neg h]
    constructor
    · intro he
      cases he
    · rintro ⟨h1, h2, rfl⟩
      exfalso
      apply h
      simp only [Bool.and_eq_true, Bool.not_eq_true', List.all_eq_true]
      exact ⟨by simp [List.isEmpty_iff, h1], h2⟩

/-- A well-formed artifact name `CyberX #<digits>.json` glob-matches, and
the scan extracts exactly its numeral's value. -/
theorem artifact_name_facts (s : String) (hne : s.data ≠ [])
    (hdig : ∀ ch ∈ s.data, ch.isDigit = true) :
    globMatchB ("CyberX #" ++ s ++ ".json") = true ∧
    extractNum ("CyberX #" ++ s ++ ".json") = some (digitsToNat s.data) ∧
    pyInt s = some (digitsToNat s.data) := by
  obtain ⟨sd⟩ := s
  simp only [String.data] at hne hdig
  have hnohash : ∀ x ∈ sd, (x == ('#' : Char)) = false := by
    intro x hx
    have hd := hdig x hx
    rw [beq_eq_false_iff_ne]
    intro he
    rw [he] at hd
    exact absurd hd (by decide)
  have hnodot : ∀ x ∈ sd, (x == ('.' : Char)) = false := by
    intro x hx
    have hd := hdig x hx
    rw [beq_eq_false_iff_ne]
    intro he
    rw [he] at hd
    exact absurd hd (by decide)
  have hdata : ("CyberX #" ++ String.mk sd ++ ".json").data =
      "CyberX #".data ++ (sd ++ ".json".data) := by
    rw [String.data_append, String.data_append]
    simp [List.append_assoc]
  have hpyint : pyInt (String.mk sd) = some (digitsToNat sd) := by
    unfold pyInt
    rw [if_pos]
    simp only [Bool.and_eq_true, Bool.not_eq_true', List.all_eq_true]
    exact ⟨by simp [List.isEmpty_iff, hne], hdig⟩
  refine ⟨?_, ?_, hpyint⟩
  · unfold globMatchB
    have h1 : beginsWith ("CyberX #".data) ("CyberX #" ++ String.mk sd ++ ".json").data = true := by
      rw [hdata]
      exact beginsWith_append _ _
    have h2 : finishesWith (".json".data) ("CyberX #" ++ String.mk sd ++ ".json").data = true := by
      unfold finishesWith
      have : ("CyberX #" ++ String.mk sd ++ ".json").data =
          ("CyberX #".data ++ sd) ++ ".json".data := by
        rw [hdata]
        simp [List.append_assoc]
      rw [this, List.reverse_append]
      exact beginsWith_append _ _
    have h3 : decide (13 ≤ ("CyberX #" ++ String.mk sd ++ ".json").length) = true := by
      apply decide_eq_true
      rw [String.length_append, String.length_append]
      have e1 : ("CyberX #" : String).length = 8 := by decide
      have e2 : (".json" : String).length = 5 := by decide
      rw [e1, e2]
      omega
    rw [h1, h2, h3]
    rfl
  · unfold extractNum pySplit
    have hdata2 : ("CyberX #" ++ String.mk sd ++ ".json").data =
        "CyberX ".data ++ ('#' : Char) :: (sd ++ ".json".data) := by
      rw [hdata]
      rfl
    rw [hdata2, splitPieces_sep ('#' : Char) _ _ _ (by decide)]
    have hrest : ∀ x ∈ sd ++ ".json".data, (x == ('#' : Char)) = false := by
      intro x hx
      rcases List.mem_append.mp hx with hx | hx
      · exact hnohash x hx
      · have hall : ∀ y ∈ (".json".data : List Char), (y == ('#' : Char)) = false := by decide
        exact hall x hx
    rw [splitPieces_no_sep ('#' : Char) _ _ hrest]
    simp only [List.map_cons, List.map_nil, List.reverse_nil, List.nil_append]
    rw [splitPieces_sep ('.' : Char) sd (['j', 's', 'o', 'n'] : List Char) [] hnodot]
    simp only [List.map_cons, List.reverse_nil, List.nil_append]
    exact hpyint

/-- The running maximum over successful conversions attains its bound. -/
theorem maxFrom_spec :
    ∀ (l : List (Option Nat)) (acc : Nat), (∀ o ∈ l, o.isSome = true) →
      ∃ m, maxFrom acc l = some m ∧ (m = acc ∨ some m ∈ l) ∧ acc ≤ m ∧
        ∀ k, some k ∈ l → k ≤ m := by
  intro l
  induction l with
  | nil =>
    intro acc _
    refine ⟨acc, rfl, Or.inl rfl, Nat.le_refl acc, ?_⟩
    intro k hk
    simp at hk
  | cons o rest ih =>
    intro acc hsome
    have ho : o.isSome = true := hsome o (by simp)
    obtain ⟨a, rfl⟩ := Option.isSome_iff_exists.mp ho
    obtain ⟨m, h1, h2, h3, h4⟩ := ih (max acc a) (fun x hx => hsome x (by simp [hx]))
    refine ⟨m, ?_, ?_, ?_, ?_⟩
    · simp only [maxFrom]
      exact h1
    · rcases h2 with rfl | h2
      · rcases Nat.le_total acc a with h | h
        · right
          rw [Nat.max_eq_right h]
          simp
        · left
          exact Nat.max_eq_left h
      · right
        exact List.mem_cons_of_mem _ h2
    · exact Nat.le_trans (Nat.le_max_left acc a) h3
    · intro k hk
      rcases List.mem_cons.mp hk with h | h
      · injection h with h
        subst h
        exact Nat.le_trans (Nat.le_max_right acc k) h3
      · exact h4 k h

/-- The `max` model over a non-empty list of successful conversions yields
an attained upper bound. -/
theorem maxOfList_spec :
    ∀ (l : List (Option Nat)), l ≠ [] → (∀ o ∈ l, o.isSome = true) →
      ∃ m, maxOfList l = some m ∧ some m ∈ l ∧ ∀ k, some k ∈ l → k ≤ m := by
  intro l hne hsome
  cases l with
  | nil => exact absurd rfl hne
  | cons o rest =>
    have ho := hsome o (by simp)
    obtain ⟨a, rfl⟩ := Option.isSome_iff_exists.mp ho
    obtain ⟨m, h1, h2, h3, h4⟩ := maxFrom_spec rest a (fun x hx => hsome x (by simp [hx]))
    refine ⟨m, ?_, ?_, ?_⟩
    · simp only [maxOfList]
      exact h1
    · rcases h2 with rfl | h2
      · simp
      · exact List.mem_cons_of_mem _ h2
    · intro k hk
      rcases List.mem_cons.mp hk with h | h
      · injection h with h
        subst h
        exact h3
      · exact h4 k h

/-- C7: in a directory in which every file name matching the glob
`CyberX #*.json` is of the well-formed pattern `CyberX #<N>.json` for a
numeral `<N>`, the startup run number is 1 when no such file exists, and
otherwise 1 plus the maximum `<N>` over those files; and the run's artifact
is written under the name `CyberX #<run number>.json`. -/
theorem c7_run_number :
    (∀ (files : List String),
      (∀ f ∈ files, globMatchB f = true →
        ∃ s : String, s.data ≠ [] ∧ (∀ ch ∈ s.data, ch.isDigit = true) ∧
          f = "CyberX #" ++ s ++ ".json") →
      ((files.filter globMatchB = [] → runNumberOfFiles files = some 1) ∧
       (files.filter globMatchB ≠ [] →
         ∃ n, runNumberOfFiles files = some (n + 1) ∧
           (∃ f ∈ files, ∃ s : String, pyInt s = some n ∧ f = "CyberX #" ++ s ++ ".json") ∧
           (∀ f ∈ files, ∀ (m : Nat) (s : String), pyInt s = some m →
             f = "CyberX #" ++ s ++ ".json" → m ≤ n)))) ∧
    (∀ k, save_filename k = "CyberX #" ++ toString k ++ ".json") := by
  refine ⟨?_, fun k => rfl⟩
  intro files H
  have hwf : ∀ f ∈ files.filter globMatchB,
      ∃ s : String, s.data ≠ [] ∧ (∀ ch ∈ s.data, ch.isDigit = true) ∧
        f = "CyberX #" ++ s ++ ".json" := by
    intro f hf
    have hm := List.mem_filter.mp hf
    exact H f hm.1 hm.2
  constructor
  · intro hempty
    simp [runNumberOfFiles, hempty]
  · intro hne
    have hcand : (files.filter globMatchB).filter
        (fun f => pyContainsChar f '#' && pyContainsChar f '.') =
        files.filter globMatchB := by
      apply List.filter_eq_self.mpr
      intro f hf
      obtain ⟨s, hs1, hs2, rfl⟩ := hwf f hf
      have h1 : pyContainsChar ("CyberX #" ++ s ++ ".json") '#' = true := by
        apply List.any_eq_true.mpr
        refine ⟨'#', ?_, by simp⟩
        rw [String.data_append, String.data_append]
        refine List.mem_append.mpr (Or.inl (List.mem_append.mpr (Or.inl ?_)))
        decide
      have h2 : pyContainsChar ("CyberX #" ++ s ++ ".json") '.' = true := by
        apply List.any_eq_true.mpr
        refine ⟨'.', ?_, by simp⟩
        rw [String.data_append]
        refine List.mem_append.mpr (Or.inr ?_)
        decide
      rw [h1, h2]
      rfl
    have hsome : ∀ o ∈ (files.filter globMatchB).map extractNum, o.isSome = true := by
      intro o ho
      obtain ⟨f, hf, rfl⟩ := List.mem_map.mp ho
      obtain ⟨s, hs1, hs2, rfl⟩ := hwf f hf
      rw [(artifact_name_facts s hs1 hs2).2.1]
      rfl
    have hmapne : (files.filter globMatchB).map extractNum ≠ [] := by
      intro hnil
      exact hne (List.map_eq_nil_iff.mp hnil)
    obtain ⟨m, hmax, hmem, hub⟩ := maxOfList_spec _ hmapne hsome
    refine ⟨m, ?_, ?_, ?_⟩
    · have hEmpty : (files.filter globMatchB).isEmpty = false := by
        cases h : files.filter globMatchB with
        | nil => exact absurd h hne
        | cons a l => rfl
      simp only [runNumberOfFiles, hEmpty, Bool.false_eq_true, if_false]
      rw [hcand, hmax]
    · obtain ⟨f, hf, hfeq⟩ := List.mem_map.mp hmem
      obtain ⟨s, hs1, hs2, rfl⟩ := hwf f hf
      refine ⟨_, (List.mem_filter.mp hf).1, s, ?_, rfl⟩
      have hfacts := artifact_name_facts s hs1 hs2
      have hd : digitsToNat s.data = m := by
        rw [hfacts.2.1] at hfeq
        injection hfeq
      rw [hfacts.2.2, hd]
    · intro f hf m' s hpy hfeq
      subst hfeq
      obtain ⟨hs1, hs2, hm'⟩ := (pyInt_eq_some_iff s m').mp hpy
      have hfacts := artifact_name_facts s hs1 hs2
      have hfE : ("CyberX #" ++ s ++ ".json") ∈ files.filter globMatchB :=
        List.mem_filter.mpr ⟨hf, hfacts.1⟩
      have hmm : some m' ∈ (files.filter globMatchB).map extractNum := by
        refine List.mem_map.mpr ⟨_, hfE, ?_⟩
        rw [hfacts.2.1, ← hm']
      exact hub m' hmm

/-- C7 witness: a directory with no matching artifact starts at run 1;
with artifacts numbered 1 through 4 the computed run number is 5, and is of
the form maximum-plus-one given by the theorem. -/
theorem c7_run_number_witness :
    runNumberOfFiles ["notes.txt"] = some 1 ∧
    (∃ n, runNumberOfFiles
      ["CyberX #1.json", "CyberX #2.json", "CyberX #3.json", "CyberX #4.json"] =
        some (n + 1)) ∧
    runNumberOfFiles
      ["CyberX #1.json", "CyberX #2.json", "CyberX #3.json", "CyberX #4.json"] = some 5 ∧
    save_filename 5 = "CyberX #5.json" := by
  have hwf4 : ∀ f ∈ ["CyberX #1.json", "CyberX #2.json", "CyberX #3.json", "CyberX #4.json"],
      globMatchB f = true →
      ∃ s : String, s.data ≠ [] ∧ (∀ ch ∈ s.data, ch.isDigit = true) ∧
        f = "CyberX #" ++ s ++ ".json" := by
    intro f hf _
    simp only [List.mem_cons, List.not_mem_nil, or_false] at hf
    rcases hf with rfl | rfl | rfl | rfl
    · exact ⟨"1", by decide, by decide, by decide⟩
    · exact ⟨"2", by decide, by decide, by decide⟩
    · exact ⟨"3", by decide, by decide, by decide⟩
    · exact ⟨"4", by decide, by decide, by decide⟩
  have hwf0 : ∀ f ∈ ["notes.txt"], globMatchB f = true →
      ∃ s : String, s.data ≠ [] ∧ (∀ ch ∈ s.data, ch.isDigit = true) ∧
        f = "CyberX #" ++ s ++ ".json" := by
    intro f hf hg
    simp only [List.mem_cons, List.not_mem_nil, or_false] at hf
    subst hf
    exact absurd hg (by decide)
  refine ⟨(c7_run_number.1 ["notes.txt"] hwf0).1 (by decide), ?_, by decide,
    c7_run_number.2 5⟩
  obtain ⟨n, hn, _, _⟩ := (c7_run_number.1 _ hwf4).2 (by decide)
  exact ⟨n, hn⟩

/-- Python slicing yields at most `n` characters. -/
theorem pySlice_length_le (s : String) (n : Nat) : (pySlice s n).length ≤ n := by
  show (s.data.take n).length ≤ n
  exact List.length_take_le n s.data

/-- The per-page bounds shared by both collection paths: content is at most
10,000 characters; the preview is the content itself when the content is at
most 500 characters and the first 500 characters plus "..." otherwise, so it
is at most 503 characters. -/
theorem mkReport_bounds (url title : String) (paragraphs : List String) :
    (mkReport url title paragraphs).1.content.length ≤ 10000 ∧
    (mkReport url title paragraphs).2.content_preview.length ≤ 503 ∧
    ((mkReport url title paragraphs).1.content.length ≤ 500 →
      (mkReport url title paragraphs).2.content_preview =
        (mkReport url title paragraphs).1.content) ∧
    (500 < (mkReport url title paragraphs).1.content.length →
      (mkReport url title paragraphs).2.content_preview =
        pySlice (mkReport url title paragraphs).1.content 500 ++ "...") := by
  simp only [mkReport]
  set content := pySlice (pyJoin " " paragraphs) 10000 with hc
  refine ⟨pySlice_length_le _ _, ?_, ?_, ?_⟩
  · by_cases h : content.length > 500
    · rw [if_pos h]
      have h1 : (pySlice content 500).length ≤ 500 := pySlice_length_le _ _
      rw [String.length_append]
      have h3 : ("..." : String).length = 3 := by decide
      omega
    · rw [if_neg h]
      omega
  · intro hle
    have : ¬ content.length > 500 := by omega
    rw [if_neg this]
  · intro hlt
    rw [if_pos hlt]

/-- Every raw report produced by either collection pass, and every log
entry, comes from `mkReport` on some page. -/
theorem passes_from_mkReport (fetch : String → FetchResult) (urls : List String) :
    (∀ r ∈ (primaryPass fetch urls).1, ∃ u t p, r = (mkReport u t p).1) ∧
    (∀ lr ∈ (primaryPass fetch urls).2.1, ∃ u t p, lr = (mkReport u t p).2) ∧
    (∀ r ∈ (fallbackPass fetch urls).1, ∃ u t p, r = (mkReport u t p).1) ∧
    (∀ lr ∈ (fallbackPass fetch urls).2.1, ∃ u t p, lr = (mkReport u t p).2) := by
  induction urls with
  | nil =>
    refine ⟨?_, ?_, ?_, ?_⟩ <;> intro x hx <;> simp [primaryPass, fallbackPass] at hx
  | cons url rest ih =>
    obtain ⟨ih1, ih2, ih3, ih4⟩ := ih
    refine ⟨?_, ?_, ?_, ?_⟩ <;> intro x hx <;>
      simp only [primaryPass, fallbackPass] at hx <;>
      cases hf : fetch url <;> rw [hf] at hx <;> simp at hx <;>
      first
        | exact ih3 x hx
        | exact ih4 x hx
        | (rcases hx with rfl | hx
           · exact ⟨_, _, _, rfl⟩
           · first | exact ih1 x hx | exact ih2 x hx | exact ih3 x hx | exact ih4 x hx)

/-- C6: for every fetched page the content produced by either collection
path has length at most 10,000 characters, and the logged preview has length
at most 503: it equals the content when the content has at most 500
characters and the first 500 characters followed by "..." otherwise; and in
every run of phase 1 all returned contents and logged previews obey these
bounds. -/
theorem c6_truncation_bounds :
    (∀ url title paragraphs, (mkReport url title paragraphs).1.content.length ≤ 10000) ∧
    (∀ url title paragraphs,
      (mkReport url title paragraphs).2.content_preview.length ≤ 503) ∧
    (∀ url title paragraphs, (mkReport url title paragraphs).1.content.length ≤ 500 →
      (mkReport url title paragraphs).2.content_preview =
        (mkReport url title paragraphs).1.content) ∧
    (∀ url title paragraphs, 500 < (mkReport url title paragraphs).1.content.length →
      (mkReport url title paragraphs).2.content_preview =
        pySlice (mkReport url title paragraphs).1.content 500 ++ "...") ∧
    (∀ (useZenrows : Bool) (fp ff : String → FetchResult),
      (∀ r ∈ (phase1_data_collection useZenrows fp ff).raws, r.content.length ≤ 10000) ∧
      (∀ lr ∈ (phase1_data_collection useZenrows fp ff).log.reports,
        lr.content_preview.length ≤ 503)) := by
  refine ⟨fun u t p => (mkReport_bounds u t p).1, fun u t p => (mkReport_bounds u t p).2.1,
    fun u t p => (mkReport_bounds u t p).2.2.1, fun u t p => (mkReport_bounds u t p).2.2.2, ?_⟩
  intro useZenrows fp ff
  have hcontent : ∀ r : RawReport, (∃ u t p, r = (mkReport u t p).1) →
      r.content.length ≤ 10000 := by
    rintro r ⟨u, t, p, rfl⟩
    exact (mkReport_bounds u t p).1
  have hpreview : ∀ lr : LogReport, (∃ u t p, lr = (mkReport u t p).2) →
      lr.content_preview.length ≤ 503 := by
    rintro lr ⟨u, t, p, rfl⟩
    exact (mkReport_bounds u t p).2.1
  unfold phase1_data_collection
  cases useZenrows with
  | false =>
    simp only [Bool.false_eq_true, if_false]
    constructor
    · intro r hr
      exact hcontent r ((passes_from_mkReport ff ARTICLE_URLS).2.2.1 r hr)
    · intro lr hlr
      exact hpreview lr ((passes_from_mkReport ff ARTICLE_URLS).2.2.2 lr hlr)
  | true =>
    simp only [if_true]
    rcases hp : primaryPass fp ARTICLE_URLS with ⟨praws, plogs, err⟩
    have hp1 : ∀ r ∈ praws, ∃ u t p, r = (mkReport u t p).1 := by
      have := (passes_from_mkReport fp ARTICLE_URLS).1
      rw [hp] at this
      exact this
    have hp2 : ∀ lr ∈ plogs, ∃ u t p, lr = (mkReport u t p).2 := by
      have := (passes_from_mkReport fp ARTICLE_URLS).2.1
      rw [hp] at this
      exact this
    cases err with
    | none =>
      constructor
      · intro r hr
        exact hcontent r (hp1 r hr)
      · intro lr hlr
        exact hpreview lr (hp2 lr hlr)
    | some e =>
      constructor
      · intro r hr
        exact hcontent r ((passes_from_mkReport ff ARTICLE_URLS).2.2.1 r hr)
      · intro lr hlr
        simp only [List.mem_append] at hlr
        rcases hlr with hlr | hlr
        · exact hpreview lr (hp2 lr hlr)
        · exact hpreview lr ((passes_from_mkReport ff ARTICLE_URLS).2.2.2 lr hlr)

/-- C6 witness: a short page whose preview equals its content, via the
theorem's untruncated-preview clause. -/
theorem c6_truncation_bounds_witness :
    (mkReport "u" "t" ["hello", "world"]).2.content_preview =
      (mkReport "u" "t" ["hello", "world"]).1.content :=
  c6_truncation_bounds.2.2.1 "u" "t" ["hello", "world"] (by decide)

/-- C3: if the primary (ZenRows) path raises on any source, the returned
sequence retains zero primary-pass documents — it is exactly the secondary
pass's output over the full, fixed source list — and inside the secondary
pass a per-source failure only contributes a `{url, error}` entry while every
remaining source is still processed (documents plus failure entries always
account for every source). -/
theorem c3_collector_fallback :
    (∀ (fp ff : String → FetchResult) (praws : List RawReport) (plogs : List LogReport)
        (e : String), primaryPass fp ARTICLE_URLS = (praws, plogs, some e) →
      (phase1_data_collection true fp ff).raws = (fallbackPass ff ARTICLE_URLS).1) ∧
    (∀ (ff : String → FetchResult) (url : String) (rest : List String) (m : String),
      ff url = FetchResult.err m →
      fallbackPass ff (url :: rest) =
        ((fallbackPass ff rest).1, (fallbackPass ff rest).2.1,
          (⟨url, m⟩ : FailedUrl) :: (fallbackPass ff rest).2.2)) ∧
    (∀ (ff : String → FetchResult) (urls : List String),
      (fallbackPass ff urls).1.length + (fallbackPass ff urls).2.2.length = urls.length) := by
  refine ⟨?_, ?_, ?_⟩
  · intro fp ff praws plogs e hp
    unfold phase1_data_collection
    rw [if_pos rfl, hp]
  · intro ff url rest m hf
    simp only [fallbackPass]
    rw [hf]
  · intro ff urls
    induction urls with
    | nil => rfl
    | cons url rest ih =>
      simp only [fallbackPass]
      cases hf : ff url <;> simp <;> omega

/-- C3 witness: a primary path that raises on its first source and a
secondary path that fails on exactly one source. -/
theorem c3_collector_fallback_witness :
    (phase1_data_collection true (fun _ => FetchResult.err "blocked")
        (fun u => if u == "https://thehackernews.com/2025/08/charon-ransomware-hits-middle-east.html"
          then FetchResult.err "404" else FetchResult.ok "T" ["p"])).raws =
      (fallbackPass
        (fun u => if u == "https://thehackernews.com/2025/08/charon-ransomware-hits-middle-east.html"
          then FetchResult.err "404" else FetchResult.ok "T" ["p"]) ARTICLE_URLS).1 ∧
    fallbackPass (fun _ => FetchResult.err "down") ["u1"] =
      ([], [], [(⟨"u1", "down"⟩ : FailedUrl)]) ∧
    (fallbackPass (fun _ => FetchResult.err "down") ["u1", "u2"]).1.length +
        (fallbackPass (fun _ => FetchResult.err "down") ["u1", "u2"]).2.2.length = 2 := by
  refine ⟨?_, ?_, ?_⟩
  · exact c3_collector_fallback.1 (fun _ => FetchResult.err "blocked") _ [] [] "blocked" rfl
  · exact c3_collector_fallback.2.1 (fun _ => FetchResult.err "down") "u1" [] "down" rfl
  · exact c3_collector_fallback.2.2 (fun _ => FetchResult.err "down") ["u1", "u2"]

/-- C9: `collected_count` always equals the length of the returned raw
sequence; on a primary failure the log's `reports` list is not cleared — it
is the primary pass's partial entries followed by the fallback entries — so
it can be strictly longer than `collected_count` and can repeat a URL. -/
theorem c9_phase1_log_invariants :
    (∀ (useZenrows : Bool) (fp ff : String → FetchResult),
      (phase1_data_collection useZenrows fp ff).log.collected_count =
        (phase1_data_collection useZenrows fp ff).raws.length) ∧
    (∀ (fp ff : String → FetchResult) (praws : List RawReport) (plogs : List LogReport)
        (e : String), primaryPass fp ARTICLE_URLS = (praws, plogs, some e) →
      (phase1_data_collection true fp ff).log.reports =
        plogs ++ (fallbackPass ff ARTICLE_URLS).2.1) ∧
    (phase1_data_collection true fpC9 ffC9).log.collected_count = 15 ∧
    (phase1_data_collection true fpC9 ffC9).log.reports.length = 16 ∧
    2 ≤ (phase1_data_collection true fpC9 ffC9).log.reports.countP
      (fun lr => lr.url == "https://thehackernews.com/2025/12/chinese-hackers-have-started-exploiting.html") := by
  refine ⟨?_, ?_, by decide, by decide, by decide⟩
  · intro useZenrows fp ff
    unfold phase1_data_collection
    cases useZenrows with
    | false => rfl
    | true =>
      simp only [if_true]
      rcases hp : primaryPass fp ARTICLE_URLS with ⟨praws, plogs, err⟩
      cases err <;> rfl
  · intro fp ff praws plogs e hp
    unfold phase1_data_collection
    rw [if_pos rfl, hp]

/-- C9 witness: the invariants applied at the concrete environments. -/
theorem c9_phase1_log_invariants_witness :
    (phase1_data_collection true fpC9 ffC9).log.collected_count =
      (phase1_data_collection true fpC9 ffC9).raws.length ∧
    (phase1_data_collection true fpC9 ffC9).log.reports =
      (primaryPass fpC9 ARTICLE_URLS).2.1 ++ (fallbackPass ffC9 ARTICLE_URLS).2.1 := by
  constructor
  · exact c9_phase1_log_invariants.1 true fpC9 ffC9
  · exact c9_phase1_log_invariants.2.1 fpC9 ffC9 (primaryPass fpC9 ARTICLE_URLS).1
      (primaryPass fpC9 ARTICLE_URLS).2.1 "blocked" (by decide)

/-- C10 witness: a generation call that raises immediately on one report. -/
theorem c10_phase2_log_on_error_witness :
    phase2_information_extraction true (fun _ => Except.error "quota") (fun _ => none)
        [(⟨"u", "t", "c"⟩ : RawReport)] =
      (mockDocs, ⟨true, true, 15, ([] : List Document) ++ mockDocs, some "quota"⟩) :=
  c10_phase2_log_on_error (fun _ => Except.error "quota") (fun _ => none)
    [⟨"u", "t", "c"⟩] [] "quota" (by simp) rfl

end CyberX
